import Mathlib

/-!
Shallow embedding of the three-stage vendor reconciliation pipeline
implemented in New.py (validate_vendor_code, validate_vendor_name,
validate_vendor_bank_account), operating on pandas DataFrames.

Modelling decisions, mirroring pandas semantics:

- A data frame is a list of column names plus a list of rows.  Each row
  carries a stable row identifier (the pandas index label; the source only
  ever uses boolean-mask based assignment, which preserves the index) and
  an association list from column name to cell value.
- A cell value is a string, a boolean, or NaN (missing).  Reading an
  absent column yields NaN, matching the frames produced by the pipeline
  (loc-assignment under a mask materialises the new column with NaN on
  unselected rows).  The pipeline assumes its key columns are present, as
  the data model of the system requires.
- Elementwise inequality (the != operator used for the mismatch flags)
  treats NaN as unequal to everything, including NaN itself, exactly as
  pandas does.
- df.set_index(k)[v] is modelled as a key-value series in row order.
  Series.map(series) in pandas calls Index.get_indexer on the mapping
  series' index, which raises InvalidIndexError whenever that index is
  not unique -- it does NOT resolve duplicates by first or last write.
  This raise happens before the enclosing loc-assignment mutates the
  frame, and it happens even when the mapped column selection is empty.
  We model it with an explicit uniqueness check guarding the assignment.
- Series.unique() and DataFrame.drop_duplicates() keep the first
  occurrence, preserving order.
- Series.isin and index lookup treat NaN as matching NaN, as the pandas
  hash-table based implementations do.
- astype(str) renders NaN as "nan" and booleans as "True"/"False".
- In-place mutation: validate_vendor_code and validate_vendor_name mutate
  their procurement argument via loc-assignment.  Each stage is embedded
  as a run function returning the final state of the mutated argument
  together with the raised error, if any; the invoice argument of
  validate_vendor_name is never written (only its copy is), which the run
  function records by returning it unchanged.
-/

namespace VendorRecon

/-- Cell value of a data frame: a string, a boolean, or NaN (missing). -/
inductive Val where
  | vstr (s : String)
  | vbool (b : Bool)
  | na
  deriving DecidableEq, Repr

/-- Elementwise inequality as pandas computes it: NaN compares unequal to
everything, including NaN itself; values of different kinds are unequal. -/
def Val.ne : Val → Val → Bool
  | .vstr a, .vstr b => decide (a ≠ b)
  | .vbool a, .vbool b => decide (a ≠ b)
  | _, _ => true

/-- Test for a missing value (pandas isna). -/
def Val.isna : Val → Bool
  | .na => true
  | _ => false

/-- Rendering used by astype(str): NaN prints as "nan", booleans as
"True" and "False". -/
def Val.toStr : Val → String
  | .vstr s => s
  | .vbool true => "True"
  | .vbool false => "False"
  | .na => "nan"

/-- Cells of a row: an association list from column name to value. -/
abbrev Cells := List (String × Val)

/-- Read a cell; an absent column reads as NaN. -/
def getAssoc : Cells → String → Val
  | [], _ => .na
  | (c₀, v₀) :: t, c => if c₀ = c then v₀ else getAssoc t c

/-- Write a cell, replacing the first binding of the column or appending a
new one. -/
def setAssoc : Cells → String → Val → Cells
  | [], c, v => [(c, v)]
  | (c₀, v₀) :: t, c, v => if c₀ = c then (c, v) :: t else (c₀, v₀) :: setAssoc t c v

/-- Presence of a column among the cells. -/
def hasCol : Cells → String → Bool
  | [], _ => false
  | (c₀, _) :: t, c => if c₀ = c then true else hasCol t c

/-- Row of a frame: a stable row identifier (the pandas index label) and
its cells. -/
structure Row where
  ri : Nat
  cells : Cells
  deriving DecidableEq, Repr

/-- Read a cell of a row. -/
def Row.get (r : Row) (c : String) : Val := getAssoc r.cells c

/-- Write a cell of a row. -/
def Row.set (r : Row) (c : String) (v : Val) : Row := ⟨r.ri, setAssoc r.cells c v⟩

/-- Data frame: column names and rows in order. -/
structure DF where
  cols : List String
  rows : List Row
  deriving DecidableEq, Repr

/-- Membership of a column name in a column list. -/
def memStr : List String → String → Bool
  | [], _ => false
  | c₀ :: t, c => if c₀ = c then true else memStr t c

/-- Ensure a column name is listed (appended at the end when new). -/
def addCol (cs : List String) (c : String) : List String :=
  if memStr cs c then cs else cs ++ [c]

/-- Key-value series obtained from df.set_index(k)[v], in row order. -/
abbrev Series := List (Val × Val)

/-- Lookup in a series: value at the first matching key, NaN when the key
is absent.  The pipeline only reaches lookups whose key set is unique. -/
def slookup : Series → Val → Val
  | [], _ => .na
  | (k₀, v₀) :: t, k => if k₀ = k then v₀ else slookup t k

/-- Key membership in a series (pandas isin against the index: NaN matches
NaN). -/
def hasKey : Series → Val → Bool
  | [], _ => false
  | (k₀, _) :: t, k => if k₀ = k then true else hasKey t k

/-- Uniqueness of the keys of a series, the precondition pandas
Index.get_indexer imposes on Series.map. -/
def nodupKeys : Series → Bool
  | [] => true
  | (k, _) :: t => !hasKey t k && nodupKeys t

/-- Order-preserving deduplication keeping the first occurrence, as
Series.unique() and DataFrame.drop_duplicates() do. -/
def dedupFirst {α : Type} [DecidableEq α] (l : List α) : List α :=
  l.foldl (fun acc a => if a ∈ acc then acc else acc ++ [a]) []

/-- Per-row effect of the masked assignment df.loc[mask, c] = f(row):
selected rows take the new value, unselected rows keep their current cell
(NaN when the column is new, since pandas materialises the column on the
whole frame). -/
def locRow (mask : Row → Bool) (c : String) (f : Row → Val) (r : Row) : Row :=
  if mask r then r.set c (f r) else r.set c (r.get c)

/-- Masked column assignment df.loc[mask, c] = f(row), with the right-hand
side aligned row-by-row (the source always assigns a series derived from
the selected rows themselves, so alignment is positional). -/
def locSet (df : DF) (mask : Row → Bool) (c : String) (f : Row → Val) : DF :=
  ⟨addCol df.cols c, df.rows.map (locRow mask c f)⟩

/-- Whole-column scalar assignment df[c] = v. -/
def setColConst (df : DF) (c : String) (v : Val) : DF :=
  ⟨addCol df.cols c, df.rows.map (fun r => r.set c v)⟩

/-- Key-value series df.set_index(k)[v]. -/
def DF.seriesOf (df : DF) (k v : String) : Series :=
  df.rows.map (fun r => (r.get k, r.get v))

/-- Errors the pipeline can raise: pandas InvalidIndexError from mapping
through a series with a non-unique index, and the ValueError reporting
unmatched vendor codes. -/
inductive PError where
  | invalidIndex
  | vendorNotFound (codes : List String)
  deriving DecidableEq, Repr

/-- Row filter used by every stage: id_column equals "H". -/
def hMask (r : Row) : Bool := decide (r.get "id_column" = Val.vstr "H")

/-- Vendor-code to vendor-name series of the SAP master
(df_sap.set_index("vendor_code")["vendor_name"]). -/
def sapNameMap (s : DF) : Series := s.seriesOf "vendor_code" "vendor_name"

/-- Vendor-code to bank-account series of the SAP master, or the empty
series when the master has no bank_account column (New.py line 28). -/
def sapBankMap (s : DF) : Series :=
  if memStr s.cols "bank_account" then s.seriesOf "vendor_code" "bank_account" else []

/-- Name lookup applied to a procurement row: its vendor_code mapped
through the SAP name series. -/
def vcFN (s : DF) (x : Row) : Val := slookup (sapNameMap s) (x.get "vendor_code")

/-- Bank lookup applied to a procurement row: its vendor_code mapped
through the SAP bank series. -/
def vcFB (s : DF) (x : Row) : Val := slookup (sapBankMap s) (x.get "vendor_code")

/-- Procurement frame after the enrichment assignments of
validate_vendor_code (New.py lines 34-36): vendor_name_sap is mapped onto
H rows, and bank_account_sap likewise unless the bank series is empty. -/
def vcFrame (p s : DF) : DF :=
  if (sapBankMap s).isEmpty then
    locSet p hMask "vendor_name_sap" (vcFN s)
  else
    locSet (locSet p hMask "vendor_name_sap" (vcFN s)) hMask "bank_account_sap" (vcFB s)

/-- Rows of the enriched frame flagged missing (New.py line 39): H rows
whose vendor_name_sap is NaN after the lookup. -/
def vcMissing (p s : DF) : List Row :=
  (vcFrame p s).rows.filter (fun r => hMask r && (r.get "vendor_name_sap").isna)

/-- Execution of validate_vendor_code (New.py lines 9-44): final state of
the in-place mutated procurement frame, together with the raised error if
any.  Mapping through a SAP lookup series with duplicate vendor codes
raises InvalidIndexError before any assignment; otherwise the frame is
enriched and ValueError is raised when any H row is unmatched, reporting
the unmatched codes as strings, deduplicated in first-occurrence order. -/
def vendorCodeRun (p s : DF) : DF × Option PError :=
  if !nodupKeys (sapNameMap s) then (p, some .invalidIndex)
  else if (vcMissing p s).isEmpty then (vcFrame p s, none)
  else (vcFrame p s,
    some (.vendorNotFound (dedupFirst ((vcMissing p s).map (fun r => (r.get "vendor_code").toStr)))))

/-- Result of validate_vendor_code as seen by a caller inspecting only the
returned value or the raised error. -/
def validate_vendor_code (p s : DF) : Except PError DF :=
  match vendorCodeRun p s with
  | (df, none) => .ok df
  | (_, some e) => .error e

/-- Invoice-number to vendor-name series of the invoice register
(df_inv.set_index("invoice_number")["vendor_name"], New.py line 63). -/
def invNameMap (inv : DF) : Series := inv.seriesOf "invoice_number" "vendor_name"

/-- Invoice-name lookup applied to a procurement row: its invoice_number
mapped through the invoice name series. -/
def vnFI (inv : DF) (x : Row) : Val := slookup (invNameMap inv) (x.get "invoice_number")

/-- Procurement frame after validate_vendor_name attaches the invoice
vendor name onto H rows (New.py line 68). -/
def vnFrame (q inv : DF) : DF :=
  locSet q hMask "vendor_name_inv" (vnFI inv)

/-- Mismatch rows (New.py lines 71-73): H rows whose attached
vendor_name_inv is present and differs from vendor_name_sap. -/
def vnMismatch (q inv : DF) : List Row :=
  (vnFrame q inv).rows.filter (fun r =>
    hMask r && !(r.get "vendor_name_inv").isna &&
      Val.ne (r.get "vendor_name_inv") (r.get "vendor_name_sap"))

/-- Correction series (New.py lines 80-83): the deduplicated
(invoice_number, vendor_name_sap) pairs of the mismatch rows. -/
def vnToFix (q inv : DF) : Series :=
  dedupFirst ((vnMismatch q inv).map (fun r => (r.get "invoice_number", r.get "vendor_name_sap")))

/-- Invoice rows selected for correction (New.py line 84): invoice_number
is a key of the correction series. -/
def vnUpd (q inv : DF) (r : Row) : Bool := hasKey (vnToFix q inv) (r.get "invoice_number")

/-- Correction lookup applied to an invoice row: its invoice_number
mapped through the correction series. -/
def vnFFix (q inv : DF) (x : Row) : Val := slookup (vnToFix q inv) (x.get "invoice_number")

/-- Corrected invoice copy (New.py lines 76-89): a copy of the invoice
frame with vendor_name_updated initialised to false on every row, then,
on the rows selected for correction, vendor_name overwritten through the
correction series and vendor_name_updated set to true. -/
def vnInvCorrected (q inv : DF) : DF :=
  locSet
    (locSet (setColConst inv "vendor_name_updated" (.vbool false))
      (vnUpd q inv) "vendor_name" (vnFFix q inv))
    (vnUpd q inv) "vendor_name_updated" (fun _ => .vbool true)

/-- Execution of validate_vendor_name (New.py lines 47-91): final states
of the procurement frame (mutated in place at line 68) and of the caller's
invoice frame (never written; only its copy is), plus the result.  A
duplicate invoice_number in the register makes the line 68 map raise
InvalidIndexError before the procurement frame is touched; duplicate
invoice numbers among the correction pairs make the line 86-88 map raise
after the procurement frame was mutated but before the copy is returned. -/
def vendorNameRun (q inv : DF) : DF × DF × Except PError DF :=
  if !nodupKeys (invNameMap inv) then (q, inv, .error .invalidIndex)
  else if !nodupKeys (vnToFix q inv) then (vnFrame q inv, inv, .error .invalidIndex)
  else (vnFrame q inv, inv, .ok (vnInvCorrected q inv))

/-- Result of validate_vendor_name as seen by a caller: the enriched
procurement frame and the corrected invoice copy, or the raised error. -/
def validate_vendor_name (q inv : DF) : Except PError (DF × DF) :=
  match vendorNameRun q inv with
  | (q1, _, .ok invC) => .ok (q1, invC)
  | (_, _, .error e) => .error e

/-- Embedding of validate_vendor_bank_account (New.py lines 94-112):
bank_account_mismatch is set to false on every row, then recomputed on H
rows as the elementwise inequality of bank_account and bank_account_sap,
provided both columns exist; the function never raises. -/
def validate_vendor_bank_account (q : DF) : DF :=
  if memStr q.cols "bank_account_sap" && memStr q.cols "bank_account" then
    locSet (setColConst q "bank_account_mismatch" (.vbool false)) hMask "bank_account_mismatch"
      (fun r => .vbool (Val.ne (r.get "bank_account") (r.get "bank_account_sap")))
  else setColConst q "bank_account_mismatch" (.vbool false)

/-- Row-level view of the enrichment assignments of validate_vendor_code:
the effect of vcFrame on a single row. -/
def vcRow (s : DF) (r : Row) : Row :=
  if (sapBankMap s).isEmpty then
    locRow hMask "vendor_name_sap" (vcFN s) r
  else
    locRow hMask "bank_account_sap" (vcFB s) (locRow hMask "vendor_name_sap" (vcFN s) r)

/-- Unmatched predicate as the specification words it, evaluated directly
on an input procurement row: an H row whose vendor_code does not resolve
to a vendor name in the SAP master. -/
def specUnmatchedB (s : DF) (r : Row) : Bool :=
  hMask r && (slookup (sapNameMap s) (r.get "vendor_code")).isna

/-- Unmatched vendor codes as the specification describes the error
payload: the codes of the unmatched H rows, rendered as strings,
deduplicated, in first-occurrence order over the procurement rows. -/
def unmatchedHCodes (p s : DF) : List String :=
  dedupFirst ((p.rows.filter (specUnmatchedB s)).map (fun r => (r.get "vendor_code").toStr))

/-- Mismatch predicate as the specification words it, evaluated directly
on an input (enriched) procurement row: an H row whose invoice vendor
name is present and differs from the SAP vendor name. -/
def specMismatchB (inv : DF) (r : Row) : Bool :=
  hMask r && !(slookup (invNameMap inv) (r.get "invoice_number")).isna &&
    Val.ne (slookup (invNameMap inv) (r.get "invoice_number")) (r.get "vendor_name_sap")

/-- Correction pairs as the specification describes them: the distinct
(invoice_number, SAP vendor name) pairs of the mismatch rows, in
first-occurrence order. -/
def specFixPairs (q inv : DF) : Series :=
  dedupFirst ((q.rows.filter (specMismatchB inv)).map
    (fun r => (r.get "invoice_number", r.get "vendor_name_sap")))

/-- Concrete procurement frame used by witnesses: one H row and one
non-H row. -/
def wProc : DF :=
  ⟨["id_column", "vendor_code", "bank_account", "invoice_number"],
   [⟨0, [("id_column", .vstr "H"), ("vendor_code", .vstr "V1"),
         ("bank_account", .vstr "111"), ("invoice_number", .vstr "I1")]⟩,
    ⟨1, [("id_column", .vstr "L"), ("vendor_code", .vstr "V9"),
         ("bank_account", .vstr "999"), ("invoice_number", .vstr "I9")]⟩]⟩

/-- Concrete SAP master used by witnesses: vendor V1 named Acme with bank
account 222. -/
def wSap : DF :=
  ⟨["vendor_code", "vendor_name", "bank_account"],
   [⟨0, [("vendor_code", .vstr "V1"), ("vendor_name", .vstr "Acme"),
         ("bank_account", .vstr "222")]⟩]⟩

/-- Concrete invoice register used by witnesses: invoice I1 carries the
divergent vendor name Acme Corp. -/
def wInv : DF :=
  ⟨["invoice_number", "vendor_name"],
   [⟨0, [("invoice_number", .vstr "I1"), ("vendor_name", .vstr "Acme Corp")]⟩]⟩

/-- Concrete procurement frame whose H row carries a vendor code absent
from wSap. -/
def wProcBad : DF :=
  ⟨["id_column", "vendor_code", "bank_account", "invoice_number"],
   [⟨0, [("id_column", .vstr "H"), ("vendor_code", .vstr "V7"),
         ("bank_account", .vstr "111"), ("invoice_number", .vstr "I1")]⟩,
    ⟨1, [("id_column", .vstr "H"), ("vendor_code", .vstr "V1"),
         ("bank_account", .vstr "111"), ("invoice_number", .vstr "I1")]⟩]⟩

/-- Concrete SAP master with a duplicated vendor_code key. -/
def wSapDup : DF :=
  ⟨["vendor_code", "vendor_name", "bank_account"],
   [⟨0, [("vendor_code", .vstr "V1"), ("vendor_name", .vstr "Acme"),
         ("bank_account", .vstr "222")]⟩,
    ⟨1, [("vendor_code", .vstr "V1"), ("vendor_name", .vstr "Acme Two"),
         ("bank_account", .vstr "333")]⟩]⟩

/-- Concrete invoice register with a duplicated invoice_number key. -/
def wInvDup : DF :=
  ⟨["invoice_number", "vendor_name"],
   [⟨0, [("invoice_number", .vstr "I1"), ("vendor_name", .vstr "Acme Corp")]⟩,
    ⟨1, [("invoice_number", .vstr "I1"), ("vendor_name", .vstr "Acme Inc")]⟩]⟩

/-- Concrete enriched procurement frame whose single H row has NaN in
both bank_account and bank_account_sap. -/
def wProcNullBank : DF :=
  ⟨["id_column", "vendor_code", "bank_account", "invoice_number",
    "vendor_name_sap", "bank_account_sap"],
   [⟨0, [("id_column", .vstr "H"), ("vendor_code", .vstr "V1"),
         ("bank_account", .na), ("invoice_number", .vstr "I1"),
         ("vendor_name_sap", .vstr "Acme"), ("bank_account_sap", .na)]⟩]⟩

/-! Basic lemmas about cells, rows and masked assignment. -/

theorem getAssoc_setAssoc_self (l : Cells) (c : String) (v : Val) :
    getAssoc (setAssoc l c v) c = v := by
  induction l with
  | nil => simp [setAssoc, getAssoc]
  | cons h t ih =>
    obtain ⟨c₀, v₀⟩ := h
    by_cases hc : c₀ = c <;> simp [setAssoc, getAssoc, hc, ih]

theorem getAssoc_setAssoc_ne (l : Cells) {c c' : String} (h : c' ≠ c) (v : Val) :
    getAssoc (setAssoc l c v) c' = getAssoc l c' := by
  induction l with
  | nil => simp [setAssoc, getAssoc, Ne.symm h]
  | cons hd t ih =>
    obtain ⟨c₀, v₀⟩ := hd
    by_cases hc : c₀ = c
    · subst hc
      simp [setAssoc, getAssoc, Ne.symm h]
    · simp [setAssoc, getAssoc, hc, ih]

theorem setAssoc_setAssoc (l : Cells) (c : String) (v w : Val) :
    setAssoc (setAssoc l c v) c w = setAssoc l c w := by
  induction l with
  | nil => simp [setAssoc]
  | cons hd t ih =>
    obtain ⟨c₀, v₀⟩ := hd
    by_cases hc : c₀ = c <;> simp [setAssoc, hc, ih]

theorem hasCol_setAssoc_self (l : Cells) (c : String) (v : Val) :
    hasCol (setAssoc l c v) c = true := by
  induction l with
  | nil => simp [setAssoc, hasCol]
  | cons hd t ih =>
    obtain ⟨c₀, v₀⟩ := hd
    by_cases hc : c₀ = c <;> simp [setAssoc, hasCol, hc, ih]

theorem hasCol_setAssoc_mono (l : Cells) {c' : String} (c : String) (v : Val)
    (h : hasCol l c' = true) : hasCol (setAssoc l c v) c' = true := by
  induction l with
  | nil => simp [hasCol] at h
  | cons hd t ih =>
    obtain ⟨c₀, v₀⟩ := hd
    by_cases hc : c₀ = c
    · subst hc
      by_cases hc' : c₀ = c'
      · subst hc'
        simp [setAssoc, hasCol]
      · simp [hasCol, hc'] at h
        simp [setAssoc, hasCol, hc', h]
    · by_cases hc' : c₀ = c'
      · subst hc'
        simp [setAssoc, hasCol, hc]
      · simp [hasCol, hc'] at h
        simp [setAssoc, hasCol, hc, hc', ih h]

theorem setAssoc_getAssoc_self (l : Cells) (c : String) (h : hasCol l c = true) :
    setAssoc l c (getAssoc l c) = l := by
  induction l with
  | nil => simp [hasCol] at h
  | cons hd t ih =>
    obtain ⟨c₀, v₀⟩ := hd
    by_cases hc : c₀ = c
    · subst hc
      simp [setAssoc, getAssoc]
    · simp [hasCol, hc] at h
      simp [setAssoc, getAssoc, hc, ih h]

theorem Row.ri_set (r : Row) (c : String) (v : Val) : (r.set c v).ri = r.ri := rfl

theorem Row.get_set_self (r : Row) (c : String) (v : Val) : (r.set c v).get c = v :=
  getAssoc_setAssoc_self r.cells c v

theorem Row.get_set_ne (r : Row) {c c' : String} (h : c' ≠ c) (v : Val) :
    (r.set c v).get c' = r.get c' :=
  getAssoc_setAssoc_ne r.cells h v

theorem Row.set_set (r : Row) (c : String) (v w : Val) :
    (r.set c v).set c w = r.set c w := by
  simp [Row.set, setAssoc_setAssoc]

theorem Row.set_get_self (r : Row) (c : String) (h : hasCol r.cells c = true) :
    r.set c (r.get c) = r := by
  cases r with
  | mk ri cells => simp [Row.set, Row.get, setAssoc_getAssoc_self cells c h]

theorem locRow_ri (m : Row → Bool) (c : String) (f : Row → Val) (r : Row) :
    (locRow m c f r).ri = r.ri := by
  unfold locRow
  split <;> rfl

theorem locRow_get_self (m : Row → Bool) (c : String) (f : Row → Val) (r : Row) :
    (locRow m c f r).get c = if m r then f r else r.get c := by
  unfold locRow
  split <;> simp [Row.get_set_self]

theorem locRow_get_ne (m : Row → Bool) {c c' : String} (h : c' ≠ c) (f : Row → Val) (r : Row) :
    (locRow m c f r).get c' = r.get c' := by
  unfold locRow
  split <;> simp [Row.get_set_ne _ h]

theorem hasCol_locRow_self (m : Row → Bool) (c : String) (f : Row → Val) (r : Row) :
    hasCol (locRow m c f r).cells c = true := by
  unfold locRow
  split <;> exact hasCol_setAssoc_self _ _ _

theorem hasCol_locRow_mono (m : Row → Bool) (c : String) {c' : String} (f : Row → Val) (r : Row)
    (h : hasCol r.cells c' = true) : hasCol (locRow m c f r).cells c' = true := by
  unfold locRow
  split <;> exact hasCol_setAssoc_mono _ _ _ h

theorem hMask_locRow (m : Row → Bool) {c : String} (h : c ≠ "id_column") (f : Row → Val) (r : Row) :
    hMask (locRow m c f r) = hMask r := by
  unfold hMask
  rw [locRow_get_ne m (fun e => h e.symm) f r]

theorem hMask_set (r : Row) {c : String} (h : c ≠ "id_column") (v : Val) :
    hMask (r.set c v) = hMask r := by
  unfold hMask
  rw [Row.get_set_ne r (fun e => h e.symm) v]

theorem memStr_append_right (cs : List String) (c : String) :
    memStr (cs ++ [c]) c = true := by
  induction cs with
  | nil => simp [memStr]
  | cons hd t ih =>
    by_cases hc : hd = c <;> simp [memStr, hc, ih]

theorem memStr_addCol_self (cs : List String) (c : String) :
    memStr (addCol cs c) c = true := by
  unfold addCol
  split
  · assumption
  · exact memStr_append_right cs c

theorem addCol_of_mem (cs : List String) (c : String) (h : memStr cs c = true) :
    addCol cs c = cs := by
  simp [addCol, h]

theorem memStr_append_left (cs : List String) {c' : String} (c : String)
    (h : memStr cs c' = true) : memStr (cs ++ [c]) c' = true := by
  induction cs with
  | nil => simp [memStr] at h
  | cons hd t ih =>
    by_cases hc : hd = c' <;> simp [memStr, hc] at h ⊢
    · exact ih h

theorem memStr_addCol_mono (cs : List String) {c' : String} (c : String)
    (h : memStr cs c' = true) : memStr (addCol cs c) c' = true := by
  unfold addCol
  split
  · exact h
  · exact memStr_append_left cs c h

theorem slookup_eq_na (s : Series) (k : Val) (h : hasKey s k = false) :
    slookup s k = .na := by
  induction s with
  | nil => rfl
  | cons hd t ih =>
    obtain ⟨k₀, v₀⟩ := hd
    by_cases hk : k₀ = k
    · simp [hasKey, hk] at h
    · simp [hasKey, hk] at h
      simp [slookup, hk, ih h]

theorem filter_map_comm {α β : Type} (f : α → β) (p : β → Bool) (l : List α) :
    (l.map f).filter p = (l.filter (fun a => p (f a))).map f := by
  induction l with
  | nil => rfl
  | cons a t ih =>
    by_cases h : p (f a) <;> simp [List.filter, h, ih]

theorem mem_zip_map {α β : Type} (l : List α) (f : α → β) (pr : α × β)
    (h : pr ∈ l.zip (l.map f)) : pr.1 ∈ l ∧ pr.2 = f pr.1 := by
  induction l with
  | nil => simp [List.zip] at h
  | cons a t ih =>
    simp [List.zip] at h
    rcases h with h | h
    · simp [h]
    · have := ih h
      exact ⟨List.mem_cons_of_mem a this.1, this.2⟩

theorem Row.get_set (r : Row) (c c' : String) (v : Val) :
    (r.set c v).get c' = if c' = c then v else r.get c' := by
  by_cases h : c' = c
  · subst h
    simp [Row.get_set_self]
  · simp [h, Row.get_set_ne r h v]

theorem locRow_get (m : Row → Bool) (c c' : String) (f : Row → Val) (r : Row) :
    (locRow m c f r).get c' =
      if c' = c then (if m r then f r else r.get c) else r.get c' := by
  by_cases h : c' = c
  · subst h
    simp [locRow_get_self]
  · simp [h, locRow_get_ne m h f r]

theorem rows_locSet (df : DF) (m : Row → Bool) (c : String) (f : Row → Val) :
    (locSet df m c f).rows = df.rows.map (locRow m c f) := rfl

theorem cols_locSet (df : DF) (m : Row → Bool) (c : String) (f : Row → Val) :
    (locSet df m c f).cols = addCol df.cols c := rfl

theorem rows_setColConst (df : DF) (c : String) (v : Val) :
    (setColConst df c v).rows = df.rows.map (fun r => r.set c v) := rfl

theorem map_ri_locSet (df : DF) (m : Row → Bool) (c : String) (f : Row → Val) :
    (locSet df m c f).rows.map Row.ri = df.rows.map Row.ri := by
  rw [rows_locSet, List.map_map]
  exact List.map_congr_left (fun r _ => locRow_ri m c f r)

theorem map_ri_setColConst (df : DF) (c : String) (v : Val) :
    (setColConst df c v).rows.map Row.ri = df.rows.map Row.ri := by
  rw [rows_setColConst, List.map_map]
  exact List.map_congr_left (fun r _ => rfl)

/-! Structural lemmas about the stage-one enrichment. -/

theorem vcFrame_rows (p s : DF) : (vcFrame p s).rows = p.rows.map (vcRow s) := by
  unfold vcFrame vcRow
  cases h : (sapBankMap s).isEmpty <;>
    simp [h, locSet, List.map_map, Function.comp]

theorem vcFrame_cols (p s : DF) : (vcFrame p s).cols =
    if (sapBankMap s).isEmpty then addCol p.cols "vendor_name_sap"
    else addCol (addCol p.cols "vendor_name_sap") "bank_account_sap" := by
  unfold vcFrame
  cases h : (sapBankMap s).isEmpty <;> simp [h, locSet]

theorem vcRow_ri (s : DF) (r : Row) : (vcRow s r).ri = r.ri := by
  unfold vcRow
  split <;> simp [locRow_ri]

theorem vcRow_get_other (s : DF) {c : String} (h1 : c ≠ "vendor_name_sap")
    (h2 : c ≠ "bank_account_sap") (r : Row) : (vcRow s r).get c = r.get c := by
  unfold vcRow
  split
  · exact locRow_get_ne _ h1 _ _
  · rw [locRow_get_ne _ h2, locRow_get_ne _ h1]

theorem vcRow_hMask (s : DF) (r : Row) : hMask (vcRow s r) = hMask r := by
  unfold hMask
  rw [vcRow_get_other s (by decide) (by decide) r]

theorem vcRow_get_vns (s : DF) (r : Row) :
    (vcRow s r).get "vendor_name_sap" =
      if hMask r then slookup (sapNameMap s) (r.get "vendor_code")
      else r.get "vendor_name_sap" := by
  unfold vcRow
  split
  · rw [locRow_get_self]
    rfl
  · rw [locRow_get_ne _ (by decide), locRow_get_self]
    rfl

theorem vcRow_get_bsap_empty (s : DF) (h : (sapBankMap s).isEmpty = true) (r : Row) :
    (vcRow s r).get "bank_account_sap" = r.get "bank_account_sap" := by
  unfold vcRow
  simp only [h, if_true]
  exact locRow_get_ne _ (by decide) _ _

theorem vcRow_get_bsap_nonempty (s : DF) (h : (sapBankMap s).isEmpty = false) (r : Row) :
    (vcRow s r).get "bank_account_sap" =
      if hMask r then slookup (sapBankMap s) (r.get "vendor_code")
      else r.get "bank_account_sap" := by
  unfold vcRow
  simp only [h, Bool.false_eq_true, if_false]
  rw [locRow_get_self, hMask_locRow _ (by decide)]
  unfold vcFB
  rw [locRow_get_ne _ (show ("vendor_code" : String) ≠ "vendor_name_sap" by decide),
    locRow_get_ne _ (show ("bank_account_sap" : String) ≠ "vendor_name_sap" by decide)]

theorem DF.ext (a b : DF) (h1 : a.cols = b.cols) (h2 : a.rows = b.rows) : a = b := by
  cases a
  cases b
  simp_all

/-! Inversion lemmas for the observable results of the stages. -/

theorem validate_vendor_code_ok {p s q : DF} (h : validate_vendor_code p s = .ok q) :
    nodupKeys (sapNameMap s) = true ∧ (vcMissing p s).isEmpty = true ∧ q = vcFrame p s := by
  unfold validate_vendor_code vendorCodeRun at h
  cases h1 : nodupKeys (sapNameMap s) with
  | false => simp [h1] at h
  | true =>
    cases h2 : (vcMissing p s).isEmpty with
    | false => simp [h1, h2] at h
    | true =>
      simp [h1, h2] at h
      exact ⟨rfl, rfl, h.symm⟩

theorem validate_vendor_code_eq_ok {p s : DF} (h1 : nodupKeys (sapNameMap s) = true)
    (h2 : (vcMissing p s).isEmpty = true) :
    validate_vendor_code p s = .ok (vcFrame p s) := by
  unfold validate_vendor_code vendorCodeRun
  simp [h1, h2]

theorem vendorCodeRun_notFound {p s q : DF} {codes : List String}
    (h : vendorCodeRun p s = (q, some (.vendorNotFound codes))) :
    nodupKeys (sapNameMap s) = true ∧ (vcMissing p s).isEmpty = false ∧ q = vcFrame p s ∧
      codes = dedupFirst ((vcMissing p s).map (fun r => (r.get "vendor_code").toStr)) := by
  unfold vendorCodeRun at h
  cases h1 : nodupKeys (sapNameMap s) with
  | false => simp [h1] at h
  | true =>
    cases h2 : (vcMissing p s).isEmpty with
    | true => simp [h1, h2] at h
    | false =>
      simp [h1, h2] at h
      exact ⟨rfl, rfl, h.1.symm, h.2.symm⟩

theorem validate_vendor_name_ok {q inv q' invC : DF}
    (h : validate_vendor_name q inv = .ok (q', invC)) :
    nodupKeys (invNameMap inv) = true ∧ nodupKeys (vnToFix q inv) = true ∧
      q' = vnFrame q inv ∧ invC = vnInvCorrected q inv := by
  unfold validate_vendor_name vendorNameRun at h
  cases h1 : nodupKeys (invNameMap inv) with
  | false => simp [h1] at h
  | true =>
    cases h2 : nodupKeys (vnToFix q inv) with
    | false => simp [h1, h2] at h
    | true =>
      simp [h1, h2] at h
      exact ⟨rfl, rfl, h.1.symm, h.2.symm⟩

theorem validate_vendor_name_eq_ok {q inv : DF} (h1 : nodupKeys (invNameMap inv) = true)
    (h2 : nodupKeys (vnToFix q inv) = true) :
    validate_vendor_name q inv = .ok (vnFrame q inv, vnInvCorrected q inv) := by
  unfold validate_vendor_name vendorNameRun
  simp [h1, h2]

/-! Bridges between the frame-level computations and the row-level
descriptions used by the specification. -/

theorem vcMissing_eq (p s : DF) :
    vcMissing p s = (p.rows.filter (specUnmatchedB s)).map (vcRow s) := by
  unfold vcMissing
  rw [vcFrame_rows, filter_map_comm]
  congr 1
  apply List.filter_congr
  intro r _
  rw [vcRow_hMask, vcRow_get_vns]
  unfold specUnmatchedB
  cases hm : hMask r <;> simp [hm]

theorem vcCodes_eq (p s : DF) :
    dedupFirst ((vcMissing p s).map (fun r => (r.get "vendor_code").toStr)) =
      unmatchedHCodes p s := by
  unfold unmatchedHCodes
  rw [vcMissing_eq, List.map_map]
  congr 1
  apply List.map_congr_left
  intro r _
  simp only [Function.comp_apply]
  rw [vcRow_get_other s (by decide) (by decide) r]

theorem vnToFix_eq (q inv : DF) : vnToFix q inv = specFixPairs q inv := by
  unfold vnToFix specFixPairs vnMismatch vnFrame
  rw [rows_locSet, filter_map_comm, List.map_map]
  have hfil : q.rows.filter (fun r =>
      hMask (locRow hMask "vendor_name_inv" (vnFI inv) r) &&
        !((locRow hMask "vendor_name_inv" (vnFI inv) r).get "vendor_name_inv").isna &&
        Val.ne ((locRow hMask "vendor_name_inv" (vnFI inv) r).get "vendor_name_inv")
          ((locRow hMask "vendor_name_inv" (vnFI inv) r).get "vendor_name_sap")) =
      q.rows.filter (specMismatchB inv) := by
    apply List.filter_congr
    intro r _
    rw [hMask_locRow _ (by decide), locRow_get_self,
      locRow_get_ne _ (show ("vendor_name_sap" : String) ≠ "vendor_name_inv" by decide)]
    unfold specMismatchB vnFI
    cases hm : hMask r <;> simp [hm]
  rw [hfil]
  congr 1
  apply List.map_congr_left
  intro r _
  simp only [Function.comp_apply]
  rw [locRow_get_ne _ (show ("invoice_number" : String) ≠ "vendor_name_inv" by decide),
    locRow_get_ne _ (show ("vendor_name_sap" : String) ≠ "vendor_name_inv" by decide)]

/-! Idempotence of the enrichment. -/

theorem locRow_absorb (m : Row → Bool) (c : String) (f : Row → Val) (x : Row)
    (hcol : hasCol x.cells c = true)
    (hf : m x = true → f x = x.get c) :
    locRow m c f x = x := by
  unfold locRow
  cases h : m x with
  | true =>
    simp only [if_true]
    rw [hf h]
    exact Row.set_get_self x c hcol
  | false =>
    simp only [Bool.false_eq_true, if_false]
    exact Row.set_get_self x c hcol

theorem hasCol_vcRow_vns (s : DF) (r : Row) :
    hasCol (vcRow s r).cells "vendor_name_sap" = true := by
  unfold vcRow
  split
  · exact hasCol_locRow_self _ _ _ _
  · exact hasCol_locRow_mono _ _ _ _ (hasCol_locRow_self _ _ _ _)

theorem vcRow_idem (s : DF) (r : Row) : vcRow s (vcRow s r) = vcRow s r := by
  have habs : locRow hMask "vendor_name_sap" (vcFN s) (vcRow s r) = vcRow s r := by
    apply locRow_absorb
    · exact hasCol_vcRow_vns s r
    · intro hmx
      rw [vcRow_hMask] at hmx
      unfold vcFN
      rw [vcRow_get_other s (by decide) (by decide) r, vcRow_get_vns, hmx]
      simp [vcFN]
  cases hb : (sapBankMap s).isEmpty with
  | true =>
    conv_lhs => rw [vcRow]
    rw [hb]
    simp only [if_true]
    exact habs
  | false =>
    conv_lhs => rw [vcRow]
    rw [hb]
    simp only [Bool.false_eq_true, if_false]
    rw [habs]
    apply locRow_absorb
    · unfold vcRow
      rw [hb]
      simp only [Bool.false_eq_true, if_false]
      exact hasCol_locRow_self _ _ _ _
    · intro hmx
      rw [vcRow_hMask] at hmx
      unfold vcFB
      rw [vcRow_get_other s (by decide) (by decide) r, vcRow_get_bsap_nonempty s hb, hmx]
      simp [vcFB]

theorem addCol_idem (cs : List String) (c : String) : addCol (addCol cs c) c = addCol cs c :=
  addCol_of_mem _ _ (memStr_addCol_self cs c)

theorem vcFrame_idem (p s : DF) : vcFrame (vcFrame p s) s = vcFrame p s := by
  apply DF.ext
  · rw [vcFrame_cols, vcFrame_cols]
    cases hb : (sapBankMap s).isEmpty with
    | true => simp [hb, addCol_idem]
    | false =>
      simp only [hb, Bool.false_eq_true, if_false]
      rw [addCol_of_mem _ _
          (memStr_addCol_mono _ _ (memStr_addCol_self p.cols "vendor_name_sap")),
        addCol_idem]
  · rw [vcFrame_rows, vcFrame_rows, List.map_map]
    exact List.map_congr_left (fun r _ => by
      simp only [Function.comp_apply]
      exact vcRow_idem s r)

/-! Claims. -/

/-- Claim C1: whenever the procurement input has at least one H row whose
vendor_code is absent from the vendor master (whose vendor_code keys are
unique, the declared invariant of the master data), validate_vendor_code
fails with the vendor-not-found error whose payload is exactly the
distinct unmatched codes of the H rows, deduplicated, in first-occurrence
order over the procurement rows -- never a strict subset. -/
theorem C1_error_reports_all_missing (p s : DF)
    (hu : nodupKeys (sapNameMap s) = true)
    (hex : ∃ r ∈ p.rows, hMask r = true ∧ hasKey (sapNameMap s) (r.get "vendor_code") = false) :
    validate_vendor_code p s = .error (.vendorNotFound (unmatchedHCodes p s)) := by
  have hne : (vcMissing p s).isEmpty = false := by
    obtain ⟨r, hr, hH, hk⟩ := hex
    have hpred : specUnmatchedB s r = true := by
      unfold specUnmatchedB
      rw [hH, slookup_eq_na _ _ hk]
      rfl
    have hmem : r ∈ p.rows.filter (specUnmatchedB s) := List.mem_filter.mpr ⟨hr, hpred⟩
    rw [vcMissing_eq]
    cases hfil : p.rows.filter (specUnmatchedB s) with
    | nil =>
      rw [hfil] at hmem
      cases hmem
    | cons a t => simp
  unfold validate_vendor_code vendorCodeRun
  simp [hu, hne, vcCodes_eq]

theorem C1_error_reports_all_missing_witness :
    nodupKeys (sapNameMap wSap) = true ∧
    (∃ r ∈ wProcBad.rows, hMask r = true ∧
      hasKey (sapNameMap wSap) (r.get "vendor_code") = false) ∧
    validate_vendor_code wProcBad wSap = .error (.vendorNotFound (unmatchedHCodes wProcBad wSap)) :=
  ⟨by decide, by decide, C1_error_reports_all_missing wProcBad wSap (by decide) (by decide)⟩

/-- Claim C2: on success, each of the three stages preserves the row
identifiers and their order of both the procurement and the invoice
collections -- nothing is added, dropped, duplicated or reordered. -/
theorem C2_row_identity (p s inv q q' invC : DF)
    (h1 : validate_vendor_code p s = .ok q)
    (h2 : validate_vendor_name q inv = .ok (q', invC)) :
    q.rows.map Row.ri = p.rows.map Row.ri ∧
    q'.rows.map Row.ri = q.rows.map Row.ri ∧
    invC.rows.map Row.ri = inv.rows.map Row.ri ∧
    (validate_vendor_bank_account q).rows.map Row.ri = q.rows.map Row.ri := by
  obtain ⟨-, -, hq⟩ := validate_vendor_code_ok h1
  obtain ⟨-, -, hq', hinvC⟩ := validate_vendor_name_ok h2
  subst hq hq' hinvC
  refine ⟨?_, ?_, ?_, ?_⟩
  · rw [vcFrame_rows, List.map_map]
    exact List.map_congr_left (fun r _ => vcRow_ri s r)
  · unfold vnFrame
    exact map_ri_locSet _ _ _ _
  · unfold vnInvCorrected
    rw [map_ri_locSet, map_ri_locSet, map_ri_setColConst]
  · unfold validate_vendor_bank_account
    split
    · rw [map_ri_locSet, map_ri_setColConst]
    · rw [map_ri_setColConst]

theorem C2_row_identity_witness :
    validate_vendor_code wProc wSap = .ok (vcFrame wProc wSap) ∧
    validate_vendor_name (vcFrame wProc wSap) wInv =
      .ok (vnFrame (vcFrame wProc wSap) wInv, vnInvCorrected (vcFrame wProc wSap) wInv) ∧
    ((vcFrame wProc wSap).rows.map Row.ri = wProc.rows.map Row.ri ∧
      (vnFrame (vcFrame wProc wSap) wInv).rows.map Row.ri =
        (vcFrame wProc wSap).rows.map Row.ri ∧
      (vnInvCorrected (vcFrame wProc wSap) wInv).rows.map Row.ri = wInv.rows.map Row.ri ∧
      (validate_vendor_bank_account (vcFrame wProc wSap)).rows.map Row.ri =
        (vcFrame wProc wSap).rows.map Row.ri) :=
  ⟨rfl, rfl, C2_row_identity wProc wSap wInv _ _ _ rfl rfl⟩

/-- Claim C9: validate_vendor_code is idempotent on success: running it
again on its own output with the same master data succeeds and returns
that output unchanged, so in particular every row keeps identical
vendor_name_sap and bank_account_sap values. -/
theorem C9_enrichment_idempotent (p s q : DF) (h : validate_vendor_code p s = .ok q) :
    validate_vendor_code q s = .ok q := by
  obtain ⟨h1, h2, hq⟩ := validate_vendor_code_ok h
  subst hq
  have hmiss : vcMissing (vcFrame p s) s = vcMissing p s := by
    unfold vcMissing
    rw [vcFrame_idem]
  rw [validate_vendor_code_eq_ok h1 (by rw [hmiss]; exact h2), vcFrame_idem]

theorem C9_enrichment_idempotent_witness :
    validate_vendor_code wProc wSap = .ok (vcFrame wProc wSap) ∧
    validate_vendor_code (vcFrame wProc wSap) wSap = .ok (vcFrame wProc wSap) :=
  ⟨rfl, C9_enrichment_idempotent wProc wSap (vcFrame wProc wSap) rfl⟩

/-- Claim C10: when validate_vendor_code fails with the vendor-not-found
error, the caller's procurement frame has already been mutated: row
identity is preserved, and every H row carries the looked-up
vendor_name_sap (the SAP name when the code resolves, NaN when it does
not) and, when the master exposes a nonempty bank series, the looked-up
bank_account_sap.  The failure is not atomic for the caller. -/
theorem C10_mutation_before_failure (p s q : DF) (codes : List String)
    (h : vendorCodeRun p s = (q, some (.vendorNotFound codes))) :
    q.rows.map Row.ri = p.rows.map Row.ri ∧
    ∀ pr ∈ p.rows.zip q.rows, hMask pr.1 = true →
      pr.2.get "vendor_name_sap" = slookup (sapNameMap s) (pr.1.get "vendor_code") ∧
      ((sapBankMap s).isEmpty = false →
        pr.2.get "bank_account_sap" = slookup (sapBankMap s) (pr.1.get "vendor_code")) := by
  obtain ⟨h1, h2, hq, hcodes⟩ := vendorCodeRun_notFound h
  subst hq
  constructor
  · rw [vcFrame_rows, List.map_map]
    exact List.map_congr_left (fun r _ => vcRow_ri s r)
  · intro pr hpr hH
    rw [vcFrame_rows] at hpr
    obtain ⟨hmem, hpr2⟩ := mem_zip_map _ _ _ hpr
    rw [hpr2]
    constructor
    · rw [vcRow_get_vns, hH]
      simp
    · intro hb
      rw [vcRow_get_bsap_nonempty s hb, hH]
      simp

theorem locRow_of_mask_false (m : Row → Bool) (c : String) (f : Row → Val) (r : Row)
    (h : m r = false) : locRow m c f r = r.set c (r.get c) := by
  unfold locRow
  rw [h]
  simp

/-- Claim C3 is refuted at this input: a procurement H row whose
bank_account and bank_account_sap are both NaN IS flagged as a mismatch
(pandas != evaluates NaN != NaN to true), contradicting the claim that a
null-versus-null comparison is not a mismatch. -/
theorem C3_null_bank_counterexample :
    wProcNullBank.rows.map (fun r => (hMask r, r.get "bank_account", r.get "bank_account_sap"))
      = [(true, Val.na, Val.na)] ∧
    (validate_vendor_bank_account wProcNullBank).rows.map
        (fun r => r.get "bank_account_mismatch")
      = [Val.vbool true] :=
  ⟨rfl, rfl⟩

/-- Claim C3 (amended): for every H row of a frame carrying both bank
columns, validate_vendor_bank_account sets bank_account_mismatch to the
pandas elementwise inequality of the procurement and SAP values, under
which NaN compares unequal to everything -- so two null values ARE
flagged as a mismatch. -/
theorem C3_bank_mismatch_semantics (p : DF)
    (hc1 : memStr p.cols "bank_account" = true)
    (hc2 : memStr p.cols "bank_account_sap" = true) :
    Val.ne Val.na Val.na = true ∧
    ∀ pr ∈ p.rows.zip (validate_vendor_bank_account p).rows, hMask pr.1 = true →
      pr.2.get "bank_account_mismatch"
        = Val.vbool (Val.ne (pr.1.get "bank_account") (pr.1.get "bank_account_sap")) := by
  refine ⟨rfl, ?_⟩
  intro pr hpr hH
  unfold validate_vendor_bank_account at hpr
  rw [hc1, hc2] at hpr
  simp only [Bool.and_self, if_true] at hpr
  rw [rows_locSet, rows_setColConst, List.map_map] at hpr
  obtain ⟨hmem, hp2⟩ := mem_zip_map _ _ _ hpr
  rw [hp2]
  simp only [Function.comp_apply]
  have hx : hMask (pr.1.set "bank_account_mismatch" (Val.vbool false)) = true := by
    rw [hMask_set pr.1 (by decide), hH]
  rw [locRow_get_self, hx, if_pos rfl,
    Row.get_set_ne _ (show ("bank_account" : String) ≠ "bank_account_mismatch" by decide),
    Row.get_set_ne _ (show ("bank_account_sap" : String) ≠ "bank_account_mismatch" by decide)]

theorem C3_bank_mismatch_semantics_witness :
    memStr wProcNullBank.cols "bank_account" = true ∧
    memStr wProcNullBank.cols "bank_account_sap" = true ∧
    (Val.ne Val.na Val.na = true ∧
      ∀ pr ∈ wProcNullBank.rows.zip (validate_vendor_bank_account wProcNullBank).rows,
        hMask pr.1 = true →
          pr.2.get "bank_account_mismatch"
            = Val.vbool (Val.ne (pr.1.get "bank_account") (pr.1.get "bank_account_sap"))) :=
  ⟨by decide, by decide, C3_bank_mismatch_semantics wProcNullBank (by decide) (by decide)⟩

/-- Claim C4 is refuted at this input: a vendor master with a duplicated
vendor_code key makes validate_vendor_code raise InvalidIndexError, and a
register with a duplicated invoice_number key makes validate_vendor_name
raise InvalidIndexError -- the operations do not complete with a
last-write-wins lookup. -/
theorem C4_duplicate_keys_counterexample :
    validate_vendor_code wProc wSapDup = .error .invalidIndex ∧
    validate_vendor_name wProc wInvDup = .error .invalidIndex :=
  ⟨rfl, rfl⟩

/-- Claim C4 (amended): a duplicate vendor_code key in the master, or a
duplicate invoice_number key in the register, makes the lookup-based map
raise InvalidIndexError (pandas Series.map requires a unique index), so
enrichment and reconciliation fail instead of resolving the key
last-write-wins. -/
theorem C4_duplicate_keys_raise (p s q inv : DF)
    (hd1 : nodupKeys (sapNameMap s) = false)
    (hd2 : nodupKeys (invNameMap inv) = false) :
    validate_vendor_code p s = .error .invalidIndex ∧
    validate_vendor_name q inv = .error .invalidIndex := by
  constructor
  · unfold validate_vendor_code vendorCodeRun
    simp [hd1]
  · unfold validate_vendor_name vendorNameRun
    simp [hd2]

theorem C4_duplicate_keys_raise_witness :
    nodupKeys (sapNameMap wSapDup) = false ∧
    nodupKeys (invNameMap wInvDup) = false ∧
    (validate_vendor_code wProcBad wSapDup = .error .invalidIndex ∧
      validate_vendor_name wProcBad wInvDup = .error .invalidIndex) :=
  ⟨by decide, by decide,
    C4_duplicate_keys_raise wProcBad wSapDup wProcBad wInvDup (by decide) (by decide)⟩

/-- Claim C5: on success of validate_vendor_name, the comparison view
attached to H rows is exactly the invoice-register lookup of their
invoice_number, and every invoice row whose invoice_number occurs among
the correction pairs -- the distinct (invoice_number, SAP name) pairs of
the H rows whose present invoice name differs from the SAP name -- has
its vendor_name overwritten with that SAP name and vendor_name_updated
set to true in the corrected copy. -/
theorem C5_mismatch_and_correction (q inv q' invC : DF)
    (h : validate_vendor_name q inv = .ok (q', invC)) :
    (∀ pr ∈ q.rows.zip q'.rows,
        pr.2.get "vendor_name_inv" =
          if hMask pr.1 then slookup (invNameMap inv) (pr.1.get "invoice_number")
          else pr.1.get "vendor_name_inv") ∧
    (∀ pr ∈ inv.rows.zip invC.rows,
        hasKey (specFixPairs q inv) (pr.1.get "invoice_number") = true →
          pr.2.get "vendor_name" = slookup (specFixPairs q inv) (pr.1.get "invoice_number") ∧
          pr.2.get "vendor_name_updated" = Val.vbool true) := by
  obtain ⟨h1, h2, hq', hinvC⟩ := validate_vendor_name_ok h
  subst hq' hinvC
  constructor
  · intro pr hpr
    unfold vnFrame at hpr
    rw [rows_locSet] at hpr
    obtain ⟨hmem, hp2⟩ := mem_zip_map _ _ _ hpr
    rw [hp2, locRow_get_self]
    rfl
  · intro pr hpr hk
    unfold vnInvCorrected at hpr
    rw [rows_locSet, rows_locSet, rows_setColConst, List.map_map, List.map_map] at hpr
    obtain ⟨hmem, hp2⟩ := mem_zip_map _ _ _ hpr
    have hx0 : vnUpd q inv (pr.1.set "vendor_name_updated" (Val.vbool false)) = true := by
      unfold vnUpd
      rw [Row.get_set_ne _ (show ("invoice_number" : String) ≠ "vendor_name_updated" by decide),
        vnToFix_eq]
      exact hk
    have hx1get : (locRow (vnUpd q inv) "vendor_name" (vnFFix q inv)
        (pr.1.set "vendor_name_updated" (Val.vbool false))).get "invoice_number"
        = pr.1.get "invoice_number" := by
      rw [locRow_get_ne _ (show ("invoice_number" : String) ≠ "vendor_name" by decide),
        Row.get_set_ne _ (show ("invoice_number" : String) ≠ "vendor_name_updated" by decide)]
    have hx1upd : vnUpd q inv (locRow (vnUpd q inv) "vendor_name" (vnFFix q inv)
        (pr.1.set "vendor_name_updated" (Val.vbool false))) = true := by
      have hdef : vnUpd q inv (locRow (vnUpd q inv) "vendor_name" (vnFFix q inv)
          (pr.1.set "vendor_name_updated" (Val.vbool false)))
          = hasKey (vnToFix q inv) ((locRow (vnUpd q inv) "vendor_name" (vnFFix q inv)
          (pr.1.set "vendor_name_updated" (Val.vbool false))).get "invoice_number") := rfl
      rw [hdef, hx1get, vnToFix_eq]
      exact hk
    constructor
    · rw [hp2]
      simp only [Function.comp_apply]
      rw [locRow_get_ne _ (show ("vendor_name" : String) ≠ "vendor_name_updated" by decide),
        locRow_get_self, hx0, if_pos rfl]
      unfold vnFFix
      rw [Row.get_set_ne _ (show ("invoice_number" : String) ≠ "vendor_name_updated" by decide),
        vnToFix_eq]
    · rw [hp2]
      simp only [Function.comp_apply]
      rw [locRow_get_self, hx1upd, if_pos rfl]

theorem C5_mismatch_and_correction_witness :
    validate_vendor_name (vcFrame wProc wSap) wInv =
      .ok (vnFrame (vcFrame wProc wSap) wInv, vnInvCorrected (vcFrame wProc wSap) wInv) ∧
    ((∀ pr ∈ (vcFrame wProc wSap).rows.zip (vnFrame (vcFrame wProc wSap) wInv).rows,
        pr.2.get "vendor_name_inv" =
          if hMask pr.1 then slookup (invNameMap wInv) (pr.1.get "invoice_number")
          else pr.1.get "vendor_name_inv") ∧
      (∀ pr ∈ wInv.rows.zip (vnInvCorrected (vcFrame wProc wSap) wInv).rows,
        hasKey (specFixPairs (vcFrame wProc wSap) wInv) (pr.1.get "invoice_number") = true →
          pr.2.get "vendor_name" =
            slookup (specFixPairs (vcFrame wProc wSap) wInv) (pr.1.get "invoice_number") ∧
          pr.2.get "vendor_name_updated" = Val.vbool true)) :=
  ⟨rfl, C5_mismatch_and_correction (vcFrame wProc wSap) wInv _ _ rfl⟩

/-- Claim C6: rows whose record type is not H are untouched by every
stage: stage one leaves their vendor_name_sap and bank_account_sap cells
unchanged (hence absent when absent before), stage two leaves their
vendor_name_inv and SAP cells unchanged, and stage three gives them
bank_account_mismatch false while leaving the other new columns
unchanged. -/
theorem C6_non_h_untouched (p s inv q q' invC : DF)
    (h1 : validate_vendor_code p s = .ok q)
    (h2 : validate_vendor_name q inv = .ok (q', invC)) :
    (∀ pr ∈ p.rows.zip q.rows, hMask pr.1 = false →
        pr.2.get "vendor_name_sap" = pr.1.get "vendor_name_sap" ∧
        pr.2.get "bank_account_sap" = pr.1.get "bank_account_sap") ∧
    (∀ pr ∈ q.rows.zip q'.rows, hMask pr.1 = false →
        pr.2.get "vendor_name_inv" = pr.1.get "vendor_name_inv" ∧
        pr.2.get "vendor_name_sap" = pr.1.get "vendor_name_sap" ∧
        pr.2.get "bank_account_sap" = pr.1.get "bank_account_sap") ∧
    (∀ pr ∈ q.rows.zip (validate_vendor_bank_account q).rows, hMask pr.1 = false →
        pr.2.get "bank_account_mismatch" = Val.vbool false ∧
        pr.2.get "vendor_name_sap" = pr.1.get "vendor_name_sap" ∧
        pr.2.get "bank_account_sap" = pr.1.get "bank_account_sap" ∧
        pr.2.get "vendor_name_inv" = pr.1.get "vendor_name_inv") := by
  obtain ⟨-, -, hq⟩ := validate_vendor_code_ok h1
  obtain ⟨-, -, hq', hinvC⟩ := validate_vendor_name_ok h2
  subst hq hq' hinvC
  refine ⟨?_, ?_, ?_⟩
  · intro pr hpr hH
    rw [vcFrame_rows] at hpr
    obtain ⟨hmem, hp2⟩ := mem_zip_map _ _ _ hpr
    rw [hp2]
    constructor
    · rw [vcRow_get_vns, hH]
      simp
    · cases hb : (sapBankMap s).isEmpty with
      | true => rw [vcRow_get_bsap_empty s hb]
      | false =>
        rw [vcRow_get_bsap_nonempty s hb, hH]
        simp
  · intro pr hpr hH
    unfold vnFrame at hpr
    rw [rows_locSet] at hpr
    obtain ⟨hmem, hp2⟩ := mem_zip_map _ _ _ hpr
    rw [hp2]
    refine ⟨?_, ?_, ?_⟩
    · rw [locRow_get_self, hH]
      simp
    · rw [locRow_get_ne _ (show ("vendor_name_sap" : String) ≠ "vendor_name_inv" by decide)]
    · rw [locRow_get_ne _ (show ("bank_account_sap" : String) ≠ "vendor_name_inv" by decide)]
  · intro pr hpr hH
    unfold validate_vendor_bank_account at hpr
    split at hpr
    · rw [rows_locSet, rows_setColConst, List.map_map] at hpr
      obtain ⟨hmem, hp2⟩ := mem_zip_map _ _ _ hpr
      rw [hp2]
      simp only [Function.comp_apply]
      have hx : hMask (pr.1.set "bank_account_mismatch" (Val.vbool false)) = false := by
        rw [hMask_set pr.1 (by decide), hH]
      refine ⟨?_, ?_, ?_, ?_⟩
      · rw [locRow_get_self, hx]
        simp only [Bool.false_eq_true, if_false]
        rw [Row.get_set_self]
      · rw [locRow_get_ne _ (show ("vendor_name_sap" : String) ≠ "bank_account_mismatch" by decide),
          Row.get_set_ne _ (show ("vendor_name_sap" : String) ≠ "bank_account_mismatch" by decide)]
      · rw [locRow_get_ne _ (show ("bank_account_sap" : String) ≠ "bank_account_mismatch" by decide),
          Row.get_set_ne _ (show ("bank_account_sap" : String) ≠ "bank_account_mismatch" by decide)]
      · rw [locRow_get_ne _ (show ("vendor_name_inv" : String) ≠ "bank_account_mismatch" by decide),
          Row.get_set_ne _ (show ("vendor_name_inv" : String) ≠ "bank_account_mismatch" by decide)]
    · rw [rows_setColConst] at hpr
      obtain ⟨hmem, hp2⟩ := mem_zip_map _ _ _ hpr
      rw [hp2]
      refine ⟨Row.get_set_self _ _ _, ?_, ?_, ?_⟩
      · exact Row.get_set_ne _ (show ("vendor_name_sap" : String) ≠ "bank_account_mismatch" by decide) _
      · exact Row.get_set_ne _ (show ("bank_account_sap" : String) ≠ "bank_account_mismatch" by decide) _
      · exact Row.get_set_ne _ (show ("vendor_name_inv" : String) ≠ "bank_account_mismatch" by decide) _

theorem C6_non_h_untouched_witness :
    validate_vendor_code wProc wSap = .ok (vcFrame wProc wSap) ∧
    validate_vendor_name (vcFrame wProc wSap) wInv =
      .ok (vnFrame (vcFrame wProc wSap) wInv, vnInvCorrected (vcFrame wProc wSap) wInv) ∧
    ((∀ pr ∈ wProc.rows.zip (vcFrame wProc wSap).rows, hMask pr.1 = false →
        pr.2.get "vendor_name_sap" = pr.1.get "vendor_name_sap" ∧
        pr.2.get "bank_account_sap" = pr.1.get "bank_account_sap") ∧
      (∀ pr ∈ (vcFrame wProc wSap).rows.zip (vnFrame (vcFrame wProc wSap) wInv).rows,
          hMask pr.1 = false →
        pr.2.get "vendor_name_inv" = pr.1.get "vendor_name_inv" ∧
        pr.2.get "vendor_name_sap" = pr.1.get "vendor_name_sap" ∧
        pr.2.get "bank_account_sap" = pr.1.get "bank_account_sap") ∧
      (∀ pr ∈ (vcFrame wProc wSap).rows.zip
          (validate_vendor_bank_account (vcFrame wProc wSap)).rows, hMask pr.1 = false →
        pr.2.get "bank_account_mismatch" = Val.vbool false ∧
        pr.2.get "vendor_name_sap" = pr.1.get "vendor_name_sap" ∧
        pr.2.get "bank_account_sap" = pr.1.get "bank_account_sap" ∧
        pr.2.get "vendor_name_inv" = pr.1.get "vendor_name_inv")) :=
  ⟨rfl, rfl, C6_non_h_untouched wProc wSap wInv _ _ _ rfl rfl⟩

/-- Claim C7: validate_vendor_name leaves the caller's invoice frame
untouched (its run state returns it unwritten), the corrected copy keeps
the row identifiers and order, and every invoice row not targeted by a
correction pair keeps vendor_name_updated false and is cell-for-cell
identical to the original on the original columns. -/
theorem C7_invoice_copy_semantics (q inv q' invC : DF)
    (h : validate_vendor_name q inv = .ok (q', invC)) :
    (vendorNameRun q inv).2.1 = inv ∧
    invC.rows.map Row.ri = inv.rows.map Row.ri ∧
    ∀ pr ∈ inv.rows.zip invC.rows,
      hasKey (specFixPairs q inv) (pr.1.get "invoice_number") = false →
        pr.2.get "vendor_name_updated" = Val.vbool false ∧
        ∀ c ∈ inv.cols, c ≠ "vendor_name_updated" → pr.2.get c = pr.1.get c := by
  obtain ⟨h1, h2, hq', hinvC⟩ := validate_vendor_name_ok h
  subst hq' hinvC
  refine ⟨?_, ?_, ?_⟩
  · unfold vendorNameRun
    split
    · rfl
    · split <;> rfl
  · unfold vnInvCorrected
    rw [map_ri_locSet, map_ri_locSet, map_ri_setColConst]
  · intro pr hpr hk
    unfold vnInvCorrected at hpr
    rw [rows_locSet, rows_locSet, rows_setColConst, List.map_map, List.map_map] at hpr
    obtain ⟨hmem, hp2⟩ := mem_zip_map _ _ _ hpr
    have hx0 : vnUpd q inv (pr.1.set "vendor_name_updated" (Val.vbool false)) = false := by
      unfold vnUpd
      rw [Row.get_set_ne _ (show ("invoice_number" : String) ≠ "vendor_name_updated" by decide),
        vnToFix_eq]
      exact hk
    have hupd2 : vnUpd q inv ((pr.1.set "vendor_name_updated" (Val.vbool false)).set
        "vendor_name" ((pr.1.set "vendor_name_updated" (Val.vbool false)).get "vendor_name"))
        = false := by
      unfold vnUpd
      rw [Row.get_set_ne _ (show ("invoice_number" : String) ≠ "vendor_name" by decide),
        Row.get_set_ne _ (show ("invoice_number" : String) ≠ "vendor_name_updated" by decide),
        vnToFix_eq]
      exact hk
    have hform : pr.2 = ((pr.1.set "vendor_name_updated" (Val.vbool false)).set "vendor_name"
        ((pr.1.set "vendor_name_updated" (Val.vbool false)).get "vendor_name")).set
        "vendor_name_updated"
        (((pr.1.set "vendor_name_updated" (Val.vbool false)).set "vendor_name"
        ((pr.1.set "vendor_name_updated" (Val.vbool false)).get "vendor_name")).get
        "vendor_name_updated") := by
      rw [hp2]
      simp only [Function.comp_apply]
      rw [locRow_of_mask_false _ _ _ _ hx0, locRow_of_mask_false _ _ _ _ hupd2]
    constructor
    · rw [hform, Row.get_set_self,
        Row.get_set_ne _ (show ("vendor_name_updated" : String) ≠ "vendor_name" by decide),
        Row.get_set_self]
    · intro c hc hcne
      rw [hform, Row.get_set]
      rw [if_neg hcne, Row.get_set]
      by_cases hcv : c = "vendor_name"
      · subst hcv
        rw [if_pos rfl,
          Row.get_set_ne _ (show ("vendor_name" : String) ≠ "vendor_name_updated" by decide)]
      · rw [if_neg hcv, Row.get_set_ne _ hcne]

theorem C7_invoice_copy_semantics_witness :
    validate_vendor_name (vcFrame wProc wSap) wInv =
      .ok (vnFrame (vcFrame wProc wSap) wInv, vnInvCorrected (vcFrame wProc wSap) wInv) ∧
    ((vendorNameRun (vcFrame wProc wSap) wInv).2.1 = wInv ∧
      (vnInvCorrected (vcFrame wProc wSap) wInv).rows.map Row.ri = wInv.rows.map Row.ri ∧
      ∀ pr ∈ wInv.rows.zip (vnInvCorrected (vcFrame wProc wSap) wInv).rows,
        hasKey (specFixPairs (vcFrame wProc wSap) wInv) (pr.1.get "invoice_number") = false →
          pr.2.get "vendor_name_updated" = Val.vbool false ∧
          ∀ c ∈ wInv.cols, c ≠ "vendor_name_updated" → pr.2.get c = pr.1.get c) :=
  ⟨rfl, C7_invoice_copy_semantics (vcFrame wProc wSap) wInv _ _ rfl⟩

/-- Claim C8 is refuted at this input: an invoice register with a
duplicated invoice_number makes validate_vendor_name raise
InvalidIndexError even on an enriched procurement frame the pipeline
itself produced, so the stage does have a failure path. -/
theorem C8_raise_counterexample :
    validate_vendor_name (vcFrame wProc wSap) wInvDup = .error .invalidIndex :=
  rfl

/-- Claim C8 (amended): provided the invoice register's invoice_number
keys are unique and the correction pairs carry no duplicated
invoice_number, validate_vendor_name succeeds; an H row whose
invoice_number matches no register key gets NaN as vendor_name_inv, and a
procurement frame lacking the bank_account_sap column gets
bank_account_mismatch false on every row from validate_vendor_bank_account,
which never raises. -/
theorem C8_data_states_not_errors (p q inv : DF)
    (hu1 : nodupKeys (invNameMap inv) = true)
    (hu2 : nodupKeys (vnToFix q inv) = true) :
    (∃ q' invC, validate_vendor_name q inv = .ok (q', invC)) ∧
    (∀ pr ∈ q.rows.zip (vnFrame q inv).rows,
        hMask pr.1 = true → hasKey (invNameMap inv) (pr.1.get "invoice_number") = false →
          pr.2.get "vendor_name_inv" = Val.na) ∧
    (memStr p.cols "bank_account_sap" = false →
      ∀ r ∈ (validate_vendor_bank_account p).rows,
        r.get "bank_account_mismatch" = Val.vbool false) := by
  refine ⟨⟨_, _, validate_vendor_name_eq_ok hu1 hu2⟩, ?_, ?_⟩
  · intro pr hpr hH hk
    unfold vnFrame at hpr
    rw [rows_locSet] at hpr
    obtain ⟨hmem, hp2⟩ := mem_zip_map _ _ _ hpr
    rw [hp2, locRow_get_self, hH, if_pos rfl]
    exact slookup_eq_na _ _ hk
  · intro hb r hr
    unfold validate_vendor_bank_account at hr
    rw [hb] at hr
    simp only [Bool.false_and, Bool.false_eq_true, if_false] at hr
    rw [rows_setColConst] at hr
    obtain ⟨r0, hr0, hr2⟩ := List.mem_map.mp hr
    rw [← hr2]
    exact Row.get_set_self _ _ _

theorem C8_data_states_not_errors_witness :
    nodupKeys (invNameMap wInv) = true ∧
    nodupKeys (vnToFix wProc wInv) = true ∧
    ((∃ q' invC, validate_vendor_name wProc wInv = .ok (q', invC)) ∧
      (∀ pr ∈ wProc.rows.zip (vnFrame wProc wInv).rows,
          hMask pr.1 = true → hasKey (invNameMap wInv) (pr.1.get "invoice_number") = false →
            pr.2.get "vendor_name_inv" = Val.na) ∧
      (memStr wProc.cols "bank_account_sap" = false →
        ∀ r ∈ (validate_vendor_bank_account wProc).rows,
          r.get "bank_account_mismatch" = Val.vbool false)) :=
  ⟨by decide, by decide, C8_data_states_not_errors wProc wProc wInv (by decide) (by decide)⟩

theorem C10_mutation_before_failure_witness :
    vendorCodeRun wProcBad wSap = (vcFrame wProcBad wSap, some (.vendorNotFound ["V7"])) ∧
    ((vcFrame wProcBad wSap).rows.map Row.ri = wProcBad.rows.map Row.ri ∧
      ∀ pr ∈ wProcBad.rows.zip (vcFrame wProcBad wSap).rows, hMask pr.1 = true →
        pr.2.get "vendor_name_sap" = slookup (sapNameMap wSap) (pr.1.get "vendor_code") ∧
        ((sapBankMap wSap).isEmpty = false →
          pr.2.get "bank_account_sap" = slookup (sapBankMap wSap) (pr.1.get "vendor_code"))) :=
  ⟨rfl, C10_mutation_before_failure wProcBad wSap _ _ rfl⟩

end VendorRecon
